import Mathlib

/-!
Shallow embedding of the order-trigger engine of the pancaketrade repository
(`src/pancaketrade/watchers/order.py` and the order creation performed by
`src/pancaketrade/conversations/buysell.py`).

Python `Decimal` prices are modelled as exact rationals (`ℚ`); the
`trailing_stop` column (an integer percent, nullable) as `Option ℤ`; the
`limit_price` column (a decimal stored as a string, where the empty string and null mean absent)
as `Option ℚ`.  The runtime state mutated by `OrderWatcher.price_update` /
`close` is collected in `OrderState`; the state-returning functions below
mirror the Python methods line by line.
-/

namespace PancakeTrade

/-- Which execution routine `OrderWatcher.close` spawns in a thread. -/
inductive ExecRoutine
  | buyExec
  | sellExec
  deriving DecidableEq, Repr

/-- The fields of `OrderWatcher` that the trigger logic reads or writes.
`type` is the raw string read from the order record (the dispatch in
`price_update` compares it to the literal `"Купить"`). -/
structure OrderState where
  type : String
  limit_price : Option ℚ
  above : Bool
  trailing_stop : Option ℤ
  amount : ℕ
  token_decimals : ℕ
  active : Bool
  finished : Bool
  min_price : Option ℚ
  max_price : Option ℚ
  deriving DecidableEq, Repr

/-- Python truthiness of the nullable integer `trailing_stop`:
`None` and `0` are falsy, any other integer is truthy. -/
def truthy : Option ℤ → Bool
  | none => false
  | some n => n ≠ 0

/-- The state mutation performed by `OrderWatcher.close` (`self.active = False`). -/
def closeState (s : OrderState) : OrderState := { s with active := false }

/-- Which routine `OrderWatcher.close` starts in a thread:
`buy` when the type string equals "Купить", `sell` otherwise. -/
def closeRoutine (s : OrderState) : ExecRoutine :=
  if s.type = "Купить" then .buyExec else .sellExec

/-- Embeds `OrderWatcher.price_update_buy`.  Returns the new state and whether the
order fired (i.e. `close` was invoked). -/
def price_update_buy (s : OrderState) (price : ℚ) : OrderState × Bool :=
  if price = 0 then (s, false)
  else
    let limit_price := s.limit_price.getD price
    if s.trailing_stop = none ∧ s.above = false ∧ price ≤ limit_price then
      (closeState s, true)
    else if truthy s.trailing_stop = true ∧ s.above = false ∧
        (price ≤ limit_price ∨ s.min_price ≠ none) then
      let s1 := if s.min_price = none then { s with min_price := some price } else s
      let watermark := s1.min_price.getD price
      let rise := (price / watermark - 1) * 100
      if price < watermark then ({ s1 with min_price := some price }, false)
      else if ((s.trailing_stop.getD 0 : ℤ) : ℚ) < rise then (closeState s1, true)
      else (s1, false)
    else (s, false)

/-- Embeds `OrderWatcher.price_update_sell`. -/
def price_update_sell (s : OrderState) (price : ℚ) : OrderState × Bool :=
  if price = 0 then (s, false)
  else
    let limit_price := s.limit_price.getD price
    if s.trailing_stop = none ∧ s.above = false ∧ price ≤ limit_price then
      (closeState s, true)
    else if s.trailing_stop = none ∧ s.above = true ∧ limit_price ≤ price then
      (closeState s, true)
    else if truthy s.trailing_stop = true ∧ s.above = true ∧
        (limit_price ≤ price ∨ s.max_price ≠ none) then
      let s1 := if s.max_price = none then { s with max_price := some price } else s
      let watermark := s1.max_price.getD price
      let drop := (1 - price / watermark) * 100
      if watermark < price then ({ s1 with max_price := some price }, false)
      else if ((s.trailing_stop.getD 0 : ℤ) : ℚ) < drop then (closeState s1, true)
      else (s1, false)
    else (s, false)

/-- Embeds `OrderWatcher.price_update`: no-op when inactive, then dispatch on the
`type` string. -/
def price_update (s : OrderState) (price : ℚ) : OrderState × Bool :=
  if s.active = false then (s, false)
  else if s.type = "Купить" then price_update_buy s price
  else price_update_sell s price

/-- Feed a list of prices one by one (the successive ticks of the tracker),
collecting for each tick whether the order fired on it. -/
def runFires : OrderState → List ℚ → OrderState × List Bool
  | s, [] => (s, [])
  | s, p :: ps =>
    let r := price_update s p
    let rest := runFires r.1 ps
    (rest.1, r.2 :: rest.2)

/-- Embeds `OrderWatcher.get_human_amount`: `amount` is in wei; divided by
`10 ** token.decimals` for a sell order (type "Продать"), by `10 ** 18` otherwise. -/
def get_human_amount (s : OrderState) : ℚ :=
  let decimals := if s.type = "Продать" then s.token_decimals else 18
  (s.amount : ℚ) / (10 : ℚ) ^ decimals

/-- Embeds `OrderWatcher.remove_order`: `delete_instance` inside a `try` whose
`except` clause only logs — a failed delete leaves the record in place and
the error is swallowed. -/
def remove_order (record_present : Bool) (delete_ok : Bool) : Bool :=
  if delete_ok = true then false else record_present

/-- Outcomes of the external calls made by `OrderWatcher.buy`. -/
structure BuyEnv where
  balance_before : ℚ
  buy_price_before : Option ℚ
  swap_ok : Bool
  tokens_out : ℚ
  price_save_ok : Bool
  approved : Bool
  delete_ok : Bool
  deriving DecidableEq, Repr

/-- Observable result of one run of `OrderWatcher.buy`. -/
structure BuyOutcome where
  state : OrderState
  stored_buy_price : Option ℚ
  record_present : Bool
  swap_calls : ℕ
  notified_failure : Bool
  approve_called : Bool
  deriving DecidableEq, Repr

/-- Embeds `OrderWatcher.buy`: one swap attempt; on failure notify, remove the
record, set `finished`; on success compute the effective price, store the
weighted-average buy price (kept at its prior value when the save raises),
possibly approve, remove the record, set `finished`. -/
def buyRun (s : OrderState) (env : BuyEnv) (record_present : Bool) : BuyOutcome :=
  if env.swap_ok = false then
    { state := { s with finished := true }
      stored_buy_price := env.buy_price_before
      record_present := remove_order record_present env.delete_ok
      swap_calls := 1
      notified_failure := true
      approve_called := false }
  else
    let effective_price := get_human_amount s / env.tokens_out
    let new_price :=
      match env.buy_price_before with
      | some prior =>
          (env.balance_before * prior + env.tokens_out * effective_price)
            / (env.balance_before + env.tokens_out)
      | none => effective_price
    let stored := if env.price_save_ok = true then some new_price else env.buy_price_before
    { state := { s with finished := true }
      stored_buy_price := stored
      record_present := remove_order record_present env.delete_ok
      swap_calls := 1
      notified_failure := false
      approve_called := !env.approved }

/-- Outcomes of the external calls made by `OrderWatcher.sell`. -/
structure SellEnv where
  balance_before_wei : ℚ
  swap_ok : Bool
  bnb_out : ℚ
  delete_ok : Bool
  deriving DecidableEq, Repr

/-- Observable result of one run of `OrderWatcher.sell`. -/
structure SellOutcome where
  state : OrderState
  record_present : Bool
  swap_calls : ℕ
  notified_failure : Bool
  deriving DecidableEq, Repr

/-- Embeds `OrderWatcher.sell`: one swap attempt; on failure notify, remove the
record, set `finished`; on success report and do the same bookkeeping. -/
def sellRun (s : OrderState) (env : SellEnv) (record_present : Bool) : SellOutcome :=
  if env.swap_ok = false then
    { state := { s with finished := true }
      record_present := remove_order record_present env.delete_ok
      swap_calls := 1
      notified_failure := true }
  else
    { state := { s with finished := true }
      record_present := remove_order record_present env.delete_ok
      swap_calls := 1
      notified_failure := false }

/-- The order record built by `BuySellConversation`: `command_buysell_type`
accepts only the strings "buy" and "sell" as the `type`;
`command_buysell_summary` stores an empty `limit_price` (absent) and
`above` true exactly for type "sell", and the fresh `OrderWatcher` starts active with
no watermark. -/
def buysellOrderState (tyq : String) (ts : Option ℤ) (amount : ℕ)
    (decimals : ℕ) : Option OrderState :=
  if tyq = "buy" ∨ tyq = "sell" then
    some { type := tyq
           limit_price := none
           above := tyq = "sell"
           trailing_stop := ts
           amount := amount
           token_decimals := decimals
           active := true
           finished := false
           min_price := none
           max_price := none }
  else none

/-- Modelled from the spec: the weighted-average effective-buy-price update
of §4.2, `new = (prior_balance * prior_price + tokens_received *
effective_price) / (prior_balance + tokens_received)` when a prior price
existed, else `effective_price`, with `effective_price = spent_amount /
tokens_received`.  Used to compare the formula of the spec with `buyRun`. -/
def spec_effective_buy_price (prior_balance : ℚ) (prior_price : Option ℚ)
    (tokens_received spent_amount : ℚ) : ℚ :=
  let effective_price := spent_amount / tokens_received
  match prior_price with
  | some p =>
      (prior_balance * p + tokens_received * effective_price)
        / (prior_balance + tokens_received)
  | none => effective_price

/-- The trailing BUY order of the trace in spec §8: limit absent,
`trailing_stop_percent = 10`. -/
def trailingBuyExample : OrderState :=
  { type := "Купить"
    limit_price := none
    above := false
    trailing_stop := some 10
    amount := 10 ^ 18
    token_decimals := 18
    active := true
    finished := false
    min_price := none
    max_price := none }

/-- The state after the first tick of the §8 trace: watermark armed at 10. -/
def tbe1 : OrderState := { trailingBuyExample with min_price := some 10 }

/-- The state after the second tick of the §8 trace: watermark lowered to 8. -/
def tbe2 : OrderState := { trailingBuyExample with min_price := some 8 }

/-- A market sell order (no limit price): used as a concrete witness input. -/
def marketSellExample : OrderState :=
  { type := "Продать"
    limit_price := none
    above := true
    trailing_stop := none
    amount := 10 ^ 18
    token_decimals := 18
    active := true
    finished := false
    min_price := none
    max_price := none }

/-- A non-trailing stop-loss sell order with limit 4. -/
def stopLossExample : OrderState :=
  { type := "Продать"
    limit_price := some 4
    above := false
    trailing_stop := none
    amount := 10 ^ 18
    token_decimals := 18
    active := true
    finished := false
    min_price := none
    max_price := none }

section Lemmas

lemma price_update_inactive (s : OrderState) (p : ℚ) (h : s.active = false) :
    price_update s p = (s, false) := by
  simp [price_update, h]

lemma price_update_zero (s : OrderState) : price_update s 0 = (s, false) := by
  cases h : s.active
  · simp [price_update, h]
  · by_cases ht : s.type = "Купить" <;>
      simp [price_update, price_update_buy, price_update_sell, h, ht]

lemma trace_step1 : price_update trailingBuyExample 10 = (tbe1, false) := by
  simp [price_update, price_update_buy, trailingBuyExample, truthy, tbe1]

lemma trace_step2 : price_update tbe1 8 = (tbe2, false) := by
  simp [price_update, price_update_buy, tbe1, tbe2, trailingBuyExample, truthy]
  norm_num

lemma trace_step3 : price_update tbe2 (17/2 : ℚ) = (tbe2, false) := by
  simp [price_update, price_update_buy, tbe2, trailingBuyExample, truthy]
  norm_num

lemma trace_step4 : price_update tbe2 (46/5 : ℚ) = (closeState tbe2, true) := by
  simp [price_update, price_update_buy, tbe2, trailingBuyExample, truthy]
  norm_num

lemma buy_cases (s : OrderState) (p : ℚ) (s' : OrderState) (b : Bool)
    (h : price_update_buy s p = (s', b)) :
    (b = true ∧ (s' = closeState s ∨
      (s.min_price = none ∧ s' = closeState { s with min_price := some p }))) ∨
    (b = false ∧ (s' = s ∨
      (s.min_price = none ∧ s' = { s with min_price := some p }) ∨
      (∃ w, s.min_price = some w ∧ p < w ∧ s' = { s with min_price := some p }))) := by
  rcases hmin : s.min_price with _ | w <;>
    simp [price_update_buy, hmin] at h <;>
    split_ifs at h <;>
    simp_all [closeState]

lemma sell_cases (s : OrderState) (p : ℚ) (s' : OrderState) (b : Bool)
    (h : price_update_sell s p = (s', b)) :
    (b = true ∧ (s' = closeState s ∨
      (s.max_price = none ∧ s' = closeState { s with max_price := some p }))) ∨
    (b = false ∧ (s' = s ∨
      (s.max_price = none ∧ s' = { s with max_price := some p }) ∨
      (∃ w, s.max_price = some w ∧ w < p ∧ s' = { s with max_price := some p }))) := by
  rcases hmax : s.max_price with _ | w <;>
    simp [price_update_sell, hmax] at h <;>
    split_ifs at h <;>
    simp_all [closeState]

lemma update_cases (s : OrderState) (p : ℚ) (s' : OrderState) (b : Bool)
    (h : price_update s p = (s', b)) :
    (s' = s ∧ b = false) ∨
    (s.active = true ∧
      (price_update_buy s p = (s', b) ∨ price_update_sell s p = (s', b))) := by
  by_cases ha : s.active = false
  · rw [price_update_inactive s p ha] at h
    injection h with h1 h2
    exact Or.inl ⟨h1.symm, h2.symm⟩
  · right
    refine ⟨by revert ha; cases s.active <;> simp, ?_⟩
    by_cases ht : s.type = "Купить" <;>
      simp [price_update, ha, ht] at h <;> [exact Or.inl h; exact Or.inr h]

/-- Whatever one `price_update` does, the full result is one of finitely many
shapes; derived from `buy_cases` / `sell_cases`. -/
lemma price_update_cases (s : OrderState) (p : ℚ) (s' : OrderState) (b : Bool)
    (h : price_update s p = (s', b)) :
    (b = true ∧ (s' = closeState s ∨
      (s.min_price = none ∧ s' = closeState { s with min_price := some p }) ∨
      (s.max_price = none ∧ s' = closeState { s with max_price := some p }))) ∨
    (b = false ∧ (s' = s ∨
      (s.min_price = none ∧ s' = { s with min_price := some p }) ∨
      (∃ w, s.min_price = some w ∧ p < w ∧ s' = { s with min_price := some p }) ∨
      (s.max_price = none ∧ s' = { s with max_price := some p }) ∨
      (∃ w, s.max_price = some w ∧ w < p ∧ s' = { s with max_price := some p }))) := by
  rcases update_cases s p s' b h with ⟨rfl, rfl⟩ | ⟨-, hb | hs⟩
  · exact Or.inr ⟨rfl, Or.inl rfl⟩
  · rcases buy_cases s p s' b hb with ⟨hb1, hb2 | ⟨hn, hc⟩⟩ | ⟨hb1, hb2 | ⟨hn, hc⟩ | hex⟩ <;>
      subst hb1
    · exact Or.inl ⟨rfl, Or.inl hb2⟩
    · exact Or.inl ⟨rfl, Or.inr (Or.inl ⟨hn, hc⟩)⟩
    · exact Or.inr ⟨rfl, Or.inl hb2⟩
    · exact Or.inr ⟨rfl, Or.inr (Or.inl ⟨hn, hc⟩)⟩
    · exact Or.inr ⟨rfl, Or.inr (Or.inr (Or.inl hex))⟩
  · rcases sell_cases s p s' b hs with ⟨hb1, hb2 | ⟨hn, hc⟩⟩ | ⟨hb1, hb2 | ⟨hn, hc⟩ | hex⟩ <;>
      subst hb1
    · exact Or.inl ⟨rfl, Or.inl hb2⟩
    · exact Or.inl ⟨rfl, Or.inr (Or.inr ⟨hn, hc⟩)⟩
    · exact Or.inr ⟨rfl, Or.inl hb2⟩
    · exact Or.inr ⟨rfl, Or.inr (Or.inr (Or.inr (Or.inl ⟨hn, hc⟩)))⟩
    · exact Or.inr ⟨rfl, Or.inr (Or.inr (Or.inr (Or.inr hex)))⟩

lemma fired_inactive (s : OrderState) (p : ℚ) (h : (price_update s p).2 = true) :
    (price_update s p).1.active = false := by
  rcases price_update_cases s p (price_update s p).1 (price_update s p).2 rfl with
    ⟨-, hc | ⟨-, hc⟩ | ⟨-, hc⟩⟩ | ⟨hb, -⟩
  · rw [hc]; rfl
  · rw [hc]; rfl
  · rw [hc]; rfl
  · rw [h] at hb; exact absurd hb (by decide)

lemma not_fired_active (s : OrderState) (p : ℚ) (h : (price_update s p).2 = false) :
    (price_update s p).1.active = s.active := by
  rcases price_update_cases s p (price_update s p).1 (price_update s p).2 rfl with
    ⟨hb, -⟩ | ⟨-, hc | ⟨-, hc⟩ | ⟨w, -, -, hc⟩ | ⟨-, hc⟩ | ⟨w, -, -, hc⟩⟩
  · rw [h] at hb; exact absurd hb (by decide)
  all_goals rw [hc]

lemma min_price_step (s : OrderState) (p : ℚ) (w : ℚ) (hm : s.min_price = some w) :
    ∃ w', (price_update s p).1.min_price = some w' ∧ w' ≤ w := by
  rcases price_update_cases s p (price_update s p).1 (price_update s p).2 rfl with
    ⟨-, hc | ⟨hn, -⟩ | ⟨-, hc⟩⟩ | ⟨-, hc | ⟨hn, -⟩ | ⟨w1, hw1, hlt, hc⟩ | ⟨-, hc⟩ | ⟨w1, -, -, hc⟩⟩
  · exact ⟨w, by rw [hc, closeState]; exact hm, le_refl w⟩
  · rw [hm] at hn; exact absurd hn (by simp)
  · exact ⟨w, by rw [hc, closeState]; exact hm, le_refl w⟩
  · exact ⟨w, by rw [hc]; exact hm, le_refl w⟩
  · rw [hm] at hn; exact absurd hn (by simp)
  · refine ⟨p, by rw [hc], ?_⟩
    rw [hm] at hw1
    exact le_of_lt (Option.some_inj.mp hw1 ▸ hlt)
  · exact ⟨w, by rw [hc]; exact hm, le_refl w⟩
  · exact ⟨w, by rw [hc]; exact hm, le_refl w⟩

lemma max_price_step (s : OrderState) (p : ℚ) (w : ℚ) (hm : s.max_price = some w) :
    ∃ w', (price_update s p).1.max_price = some w' ∧ w ≤ w' := by
  rcases price_update_cases s p (price_update s p).1 (price_update s p).2 rfl with
    ⟨-, hc | ⟨-, hc⟩ | ⟨hn, -⟩⟩ | ⟨-, hc | ⟨-, hc⟩ | ⟨w1, -, -, hc⟩ | ⟨hn, -⟩ | ⟨w1, hw1, hlt, hc⟩⟩
  · exact ⟨w, by rw [hc, closeState]; exact hm, le_refl w⟩
  · exact ⟨w, by rw [hc, closeState]; exact hm, le_refl w⟩
  · rw [hm] at hn; exact absurd hn (by simp)
  · exact ⟨w, by rw [hc]; exact hm, le_refl w⟩
  · exact ⟨w, by rw [hc]; exact hm, le_refl w⟩
  · exact ⟨w, by rw [hc]; exact hm, le_refl w⟩
  · rw [hm] at hn; exact absurd hn (by simp)
  · refine ⟨p, by rw [hc], ?_⟩
    rw [hm] at hw1
    exact le_of_lt (Option.some_inj.mp hw1 ▸ hlt)

lemma runFires_inactive (s : OrderState) (ps : List ℚ) (h : s.active = false) :
    runFires s ps = (s, List.replicate ps.length false) := by
  induction ps with
  | nil => rfl
  | cons p ps ih =>
    simp [runFires, price_update_inactive s p h, ih, List.replicate_succ]

lemma runFires_count (s : OrderState) (ps : List ℚ) :
    ((runFires s ps).2.count true) ≤ 1 := by
  induction ps generalizing s with
  | nil => simp [runFires]
  | cons p ps ih =>
    cases hb : (price_update s p).2 with
    | false =>
      simpa [runFires, hb, List.count_cons] using ih (price_update s p).1
    | true =>
      have hin : (price_update s p).1.active = false := fired_inactive s p hb
      simp [runFires, hb, runFires_inactive (price_update s p).1 ps hin,
        List.count_cons, List.count_replicate]

lemma runFires_min (s : OrderState) (ps : List ℚ) (w : ℚ) (hm : s.min_price = some w) :
    ∃ w', (runFires s ps).1.min_price = some w' ∧ w' ≤ w := by
  induction ps generalizing s w with
  | nil => exact ⟨w, hm, le_refl w⟩
  | cons p ps ih =>
    obtain ⟨w1, hw1, hle1⟩ := min_price_step s p w hm
    obtain ⟨w2, hw2, hle2⟩ := ih (price_update s p).1 w1 hw1
    exact ⟨w2, by simpa [runFires] using hw2, le_trans hle2 hle1⟩

lemma runFires_max (s : OrderState) (ps : List ℚ) (w : ℚ) (hm : s.max_price = some w) :
    ∃ w', (runFires s ps).1.max_price = some w' ∧ w ≤ w' := by
  induction ps generalizing s w with
  | nil => exact ⟨w, hm, le_refl w⟩
  | cons p ps ih =>
    obtain ⟨w1, hw1, hle1⟩ := max_price_step s p w hm
    obtain ⟨w2, hw2, hle2⟩ := ih (price_update s p).1 w1 hw1
    exact ⟨w2, by simpa [runFires] using hw2, le_trans hle1 hle2⟩

lemma trace_full :
    runFires trailingBuyExample [10, 8, 8.5, 9.2] =
      (closeState tbe2, [false, false, false, true]) := by
  have h85 : (8.5 : ℚ) = 17 / 2 := by norm_num
  have h92 : (9.2 : ℚ) = 46 / 5 := by norm_num
  simp [runFires, h85, h92, trace_step1, trace_step2, trace_step3, trace_step4]

lemma trace_one : runFires trailingBuyExample [10] = (tbe1, [false]) := by
  simp [runFires, trace_step1]

lemma trace_two : runFires trailingBuyExample [10, 8] = (tbe2, [false, false]) := by
  simp [runFires, trace_step1, trace_step2]

end Lemmas

section Claims

/-- C1 counterexample: for the trailing BUY order with `limit_price` absent
(`trailingBuyExample`), the very first `price_update` with the nonzero price 10
does NOT fire the order: it stays active, no `close` happens — the watermark is
merely armed.  This refutes "for every order whose limit_price is absent,
regardless ... of whether a trailing_stop is set, the very first call ...
fires the order". -/
theorem market_order_first_tick_counterexample :
    trailingBuyExample.limit_price = none ∧
    trailingBuyExample.trailing_stop = some 10 ∧
    trailingBuyExample.active = true ∧
    (price_update trailingBuyExample 10).2 = false ∧
    (price_update trailingBuyExample 10).1.active = true := by
  refine ⟨rfl, rfl, rfl, ?_, ?_⟩
  · rw [trace_step1]
  · rw [trace_step1]; rfl

/-- C1 (amended): for every active NON-TRAILING order with `limit_price`
absent, on a trigger path the code defines (BUY requires `above = false`;
SELL fires for either comparison), the very first `price_update` with a
nonzero price fires the order: `active` transitions to false and `close` is
invoked.  (A trailing order instead arms its watermark without firing, and a
BUY/ABOVE order never fires.) -/
theorem market_order_fires_first_tick (s : OrderState) (p : ℚ)
    (hact : s.active = true) (hlim : s.limit_price = none)
    (htr : s.trailing_stop = none) (hp : p ≠ 0)
    (hba : s.type = "Купить" → s.above = false) :
    price_update s p = (closeState s, true) := by
  by_cases hty : s.type = "Купить"
  · have hab := hba hty
    simp [price_update, price_update_buy, hact, hty, hab, hlim, htr, hp]
  · cases hb : s.above
    · simp [price_update, price_update_sell, hact, hty, hb, hlim, htr, hp]
    · simp [price_update, price_update_sell, hact, hty, hb, hlim, htr, hp]

/-- C1 (amended) witness: the market sell order fires on its first tick at
price 5. -/
theorem market_order_fires_first_tick_witness :
    price_update marketSellExample 5 = (closeState marketSellExample, true) :=
  market_order_fires_first_tick marketSellExample 5 rfl rfl rfl
    (by norm_num) (fun h => absurd h (by decide))

/-- C2: the trailing BUY trace of spec §8 — prices [10, 8, 8.5, 9.2], limit
absent, `trailing_stop_percent = 10`: the watermark arms at 10 on the first
tick without firing, drops to 8 on the second, the third tick (+6.25 %) does
not fire, the fourth (+15 %) fires; and in general a trailing BUY order with
an armed watermark `w > 0` and a positive callback `ts` fires on a nonzero
price `p` exactly when `(p/w - 1) * 100 > ts`. -/
theorem trailing_buy_fire_condition (s : OrderState) (ts : ℤ) (w p : ℚ)
    (hact : s.active = true) (hty : s.type = "Купить") (hab : s.above = false)
    (hts : s.trailing_stop = some ts) (hts0 : 0 < ts)
    (hmin : s.min_price = some w) (hw : 0 < w) (hp : p ≠ 0) :
    ((runFires trailingBuyExample [10]).1.min_price = some 10 ∧
     (runFires trailingBuyExample [10]).2 = [false] ∧
     (runFires trailingBuyExample [10, 8]).1.min_price = some 8 ∧
     (runFires trailingBuyExample [10, 8]).2 = [false, false] ∧
     (runFires trailingBuyExample [10, 8, 8.5]).2 = [false, false, false] ∧
     (runFires trailingBuyExample [10, 8, 8.5, 9.2]).2 = [false, false, false, true]) ∧
    ((price_update s p).2 = true ↔ (ts : ℚ) < (p / w - 1) * 100) := by
  constructor
  · refine ⟨?_, ?_, ?_, ?_, ?_, ?_⟩
    · rw [trace_one]; rfl
    · rw [trace_one]
    · rw [trace_two]; rfl
    · rw [trace_two]
    · have h85 : (8.5 : ℚ) = 17 / 2 := by norm_num
      simp [runFires, h85, trace_step1, trace_step2, trace_step3]
    · rw [trace_full]
  · have hne : truthy (some ts) = true := by simp [truthy]; omega
    have h1 : price_update s p = price_update_buy s p := by
      simp [price_update, hact, hty]
    rw [h1]
    simp only [price_update_buy, hmin, hts, hab, hne, hp, Option.getD_some, if_false,
      ite_false, ite_true, Option.some_ne_none]
    norm_num
    by_cases hpw : p < w
    · have hlt1 : p / w < 1 := (div_lt_one hw).mpr hpw
      have hneg : (p / w - 1) * 100 < 0 := by nlinarith
      have hts0q : (0 : ℚ) ≤ (ts : ℚ) := by exact_mod_cast le_of_lt hts0
      simp [hpw]
      linarith
    · by_cases hfire : ((ts : ℤ) : ℚ) < (p / w - 1) * 100 <;>
        simp [hpw, hfire]

/-- C2 witness: the fire condition applied to the armed state `tbe1`
(watermark 10, callback 10 %) at price 12 (+20 %). -/
theorem trailing_buy_fire_condition_witness :
    ((runFires trailingBuyExample [10]).1.min_price = some 10 ∧
     (runFires trailingBuyExample [10]).2 = [false] ∧
     (runFires trailingBuyExample [10, 8]).1.min_price = some 8 ∧
     (runFires trailingBuyExample [10, 8]).2 = [false, false] ∧
     (runFires trailingBuyExample [10, 8, 8.5]).2 = [false, false, false] ∧
     (runFires trailingBuyExample [10, 8, 8.5, 9.2]).2 = [false, false, false, true]) ∧
    ((price_update tbe1 12).2 = true ↔ ((10 : ℤ) : ℚ) < (12 / 10 - 1) * 100) :=
  trailing_buy_fire_condition tbe1 10 10 12 rfl rfl rfl rfl
    (by decide) rfl (by norm_num) (by norm_num)

/-- C3: an active non-trailing SELL order with a limit price fires on a
nonzero price `p` iff `p ≤ limit` (stop-loss, `above = false`) respectively
`p ≥ limit` (take-profit, `above = true`); when it does not fire the whole
state is unchanged. -/
theorem sell_limit_fire_condition (s : OrderState) (L p : ℚ)
    (hact : s.active = true) (hty : s.type = "Продать")
    (htr : s.trailing_stop = none) (hlim : s.limit_price = some L) (hp : p ≠ 0) :
    (s.above = false → ((price_update s p).2 = true ↔ p ≤ L)) ∧
    (s.above = true → ((price_update s p).2 = true ↔ L ≤ p)) ∧
    ((price_update s p).2 = false → price_update s p = (s, false)) := by
  have hty2 : ¬ s.type = "Купить" := by rw [hty]; decide
  have h1 : price_update s p = price_update_sell s p := by
    simp [price_update, hact, hty2]
  rw [h1]
  cases hab : s.above
  · by_cases hpl : p ≤ L <;>
      simp [price_update_sell, hab, htr, hlim, hp, hpl, truthy]
  · by_cases hpl : L ≤ p <;>
      simp [price_update_sell, hab, htr, hlim, hp, hpl, truthy]

/-- C3 witness: the stop-loss order with limit 4 fires at price 3 and the
non-firing side conditions hold trivially. -/
theorem sell_limit_fire_condition_witness :
    (stopLossExample.above = false →
      ((price_update stopLossExample 3).2 = true ↔ (3 : ℚ) ≤ 4)) ∧
    (stopLossExample.above = true →
      ((price_update stopLossExample 3).2 = true ↔ (4 : ℚ) ≤ 3)) ∧
    ((price_update stopLossExample 3).2 = false →
      price_update stopLossExample 3 = (stopLossExample, false)) :=
  sell_limit_fire_condition stopLossExample 4 3 rfl rfl rfl rfl (by norm_num)

/-- The BUY order used in the weighted-average example: spending 40 BNB
(`amount` = 40 · 10¹⁸ wei), so that with 50 tokens received the effective
price is 0.8 BNB/token. -/
def weightedBuyOrder : OrderState :=
  { type := "Купить"
    limit_price := none
    above := false
    trailing_stop := none
    amount := 40 * 10 ^ 18
    token_decimals := 18
    active := false
    finished := false
    min_price := none
    max_price := none }

/-- The environment of the weighted-average example: prior balance 100 at
prior price 0.5, swap succeeds returning 50 tokens. -/
def weightedBuyEnv : BuyEnv :=
  { balance_before := 100
    buy_price_before := some (1 / 2)
    swap_ok := true
    tokens_out := 50
    price_save_ok := true
    approved := true
    delete_ok := true }

/-- C4 counterexample: the arithmetic example in the spec is wrong.  With prior
balance 100 at price 0.5 and 50 tokens bought at effective price 0.8, the
code stores (100·0.5 + 50·0.8)/150 = 0.6, not 0.5333… (= 8/15). -/
theorem weighted_average_counterexample :
    (buyRun weightedBuyOrder weightedBuyEnv true).stored_buy_price = some (3 / 5) ∧
    (3 / 5 : ℚ) ≠ 8 / 15 := by
  constructor
  · simp [buyRun, weightedBuyOrder, weightedBuyEnv, get_human_amount, remove_order]
    norm_num
  · norm_num

/-- C4 (amended): on a successful BUY whose price save succeeds, the stored
effective buy price is exactly the size-weighted average of the spec (prior price
branch and no-prior branch), with `effective_price = spent_amount /
tokens_received`; the concrete example (prior balance 100 @ 0.5, buy 50
tokens at effective 0.8) yields 0.6. -/
theorem buy_weighted_average (s : OrderState) (env : BuyEnv) (rp : Bool)
    (hswap : env.swap_ok = true) (hsave : env.price_save_ok = true) :
    (buyRun s env rp).stored_buy_price =
      some (spec_effective_buy_price env.balance_before env.buy_price_before
        env.tokens_out (get_human_amount s)) ∧
    (buyRun weightedBuyOrder weightedBuyEnv true).stored_buy_price = some (3 / 5) := by
  constructor
  · rcases hbp : env.buy_price_before with _ | prior <;>
      simp [buyRun, hswap, hsave, hbp, spec_effective_buy_price]
  · simp [buyRun, weightedBuyOrder, weightedBuyEnv, get_human_amount, remove_order]
    norm_num

/-- C4 (amended) witness: instantiating the weighted-average theorem at the
concrete example environment. -/
theorem buy_weighted_average_witness :
    (buyRun weightedBuyOrder weightedBuyEnv true).stored_buy_price =
      some (spec_effective_buy_price weightedBuyEnv.balance_before
        weightedBuyEnv.buy_price_before weightedBuyEnv.tokens_out
        (get_human_amount weightedBuyOrder)) ∧
    (buyRun weightedBuyOrder weightedBuyEnv true).stored_buy_price = some (3 / 5) :=
  buy_weighted_average weightedBuyOrder weightedBuyEnv true rfl rfl

/-- A failing buy environment: the swap reports failure, the record delete
succeeds. -/
def failedBuyEnv : BuyEnv :=
  { balance_before := 100
    buy_price_before := none
    swap_ok := false
    tokens_out := 0
    price_save_ok := true
    approved := true
    delete_ok := true }

/-- A failing sell environment. -/
def failedSellEnv : SellEnv :=
  { balance_before_wei := 10 ^ 18
    swap_ok := false
    bnb_out := 0
    delete_ok := true }

/-- C5: when the swap call reports failure (buy or sell), the failure is
notified, the persisted record is deleted, `finished` is set, exactly one
swap was attempted (no retry), and — `active` being already false at firing —
every later `price_update` on the resulting state is a no-op, so the order
can never fire again. -/
theorem failed_execution_terminal (s : OrderState) (envB : BuyEnv)
    (envS : SellEnv) (rp : Bool) (hact : s.active = false)
    (hB : envB.swap_ok = false) (hS : envS.swap_ok = false)
    (hdB : envB.delete_ok = true) (hdS : envS.delete_ok = true) :
    ((buyRun s envB rp).notified_failure = true ∧
     (buyRun s envB rp).record_present = false ∧
     (buyRun s envB rp).state.finished = true ∧
     (buyRun s envB rp).swap_calls = 1 ∧
     ∀ p, price_update (buyRun s envB rp).state p = ((buyRun s envB rp).state, false)) ∧
    ((sellRun s envS rp).notified_failure = true ∧
     (sellRun s envS rp).record_present = false ∧
     (sellRun s envS rp).state.finished = true ∧
     (sellRun s envS rp).swap_calls = 1 ∧
     ∀ p, price_update (sellRun s envS rp).state p = ((sellRun s envS rp).state, false)) := by
  have hBa : (buyRun s envB rp).state.active = false := by
    simp [buyRun, hB]; exact hact
  have hSa : (sellRun s envS rp).state.active = false := by
    simp [sellRun, hS]; exact hact
  refine ⟨⟨?_, ?_, ?_, ?_, fun p => price_update_inactive _ p hBa⟩,
    ⟨?_, ?_, ?_, ?_, fun p => price_update_inactive _ p hSa⟩⟩ <;>
    simp [buyRun, sellRun, hB, hS, remove_order, hdB, hdS]

/-- C5 witness: the failure bookkeeping at the fired stop-loss order and the
concrete failing environments. -/
theorem failed_execution_terminal_witness :
    ((buyRun (closeState stopLossExample) failedBuyEnv true).notified_failure = true ∧
     (buyRun (closeState stopLossExample) failedBuyEnv true).record_present = false ∧
     (buyRun (closeState stopLossExample) failedBuyEnv true).state.finished = true ∧
     (buyRun (closeState stopLossExample) failedBuyEnv true).swap_calls = 1 ∧
     ∀ p, price_update (buyRun (closeState stopLossExample) failedBuyEnv true).state p =
       ((buyRun (closeState stopLossExample) failedBuyEnv true).state, false)) ∧
    ((sellRun (closeState stopLossExample) failedSellEnv true).notified_failure = true ∧
     (sellRun (closeState stopLossExample) failedSellEnv true).record_present = false ∧
     (sellRun (closeState stopLossExample) failedSellEnv true).state.finished = true ∧
     (sellRun (closeState stopLossExample) failedSellEnv true).swap_calls = 1 ∧
     ∀ p, price_update (sellRun (closeState stopLossExample) failedSellEnv true).state p =
       ((sellRun (closeState stopLossExample) failedSellEnv true).state, false)) :=
  failed_execution_terminal (closeState stopLossExample) failedBuyEnv failedSellEnv
    true rfl rfl rfl rfl rfl

/-- C6: `price_update` is a complete no-op when the order is inactive or the
price is 0, and over any price sequence an order fires at most once. -/
theorem noop_and_fires_at_most_once (s : OrderState) (p : ℚ) (ps : List ℚ)
    (h : s.active = false ∨ p = 0) :
    price_update s p = (s, false) ∧ (runFires s ps).2.count true ≤ 1 := by
  refine ⟨?_, runFires_count s ps⟩
  rcases h with h | rfl
  · exact price_update_inactive s p h
  · exact price_update_zero s

/-- C6 witness: a closed order ignores price 7, and the trace fires at most
once. -/
theorem noop_and_fires_at_most_once_witness :
    price_update (closeState marketSellExample) 7 =
      (closeState marketSellExample, false) ∧
    (runFires (closeState marketSellExample) [1, 2, 3]).2.count true ≤ 1 :=
  noop_and_fires_at_most_once (closeState marketSellExample) 7 [1, 2, 3]
    (Or.inl rfl)

/-- C7: once a watermark exists it is monotonic across any sequence of price
updates: `min_price` never increases (trailing BUY), `max_price` never
decreases (trailing SELL). -/
theorem watermark_monotonic (s : OrderState) (ps : List ℚ) :
    (∀ w, s.min_price = some w →
      ∃ w', (runFires s ps).1.min_price = some w' ∧ w' ≤ w) ∧
    (∀ w, s.max_price = some w →
      ∃ w', (runFires s ps).1.max_price = some w' ∧ w ≤ w') :=
  ⟨fun w hm => runFires_min s ps w hm, fun w hm => runFires_max s ps w hm⟩

/-- C7 witness: starting from the armed state `tbe1` (watermark 10), after
the price sequence [8, 12] the watermark is still at most 10. -/
theorem watermark_monotonic_witness :
    ∃ w', (runFires tbe1 [8, 12]).1.min_price = some w' ∧ w' ≤ 10 :=
  (watermark_monotonic tbe1 [8, 12]).1 10 rfl

/-- A buy environment whose swap succeeds but whose record delete raises a
database error (which `remove_order` swallows). -/
def failedDeleteEnv : BuyEnv :=
  { balance_before := 100
    buy_price_before := none
    swap_ok := true
    tokens_out := 50
    price_save_ok := true
    approved := true
    delete_ok := false }

/-- C8 counterexample: when `delete_instance` raises inside `remove_order`,
the exception is swallowed and `finished` is still set to true while the
persisted record remains in storage — the invariant "finished=true implies
the record has been removed" fails in exactly this reachable state. -/
theorem finished_record_counterexample :
    (buyRun (closeState stopLossExample) failedDeleteEnv true).state.finished = true ∧
    (buyRun (closeState stopLossExample) failedDeleteEnv true).record_present = true := by
  constructor <;>
    simp [buyRun, failedDeleteEnv, remove_order]

/-- C8 (amended): `finished = true` implies the persisted record has been
removed, provided the delete operation itself did not fail; when
`delete_instance` raises, the error is swallowed and the order is marked
finished with the record still stored. -/
theorem finished_implies_removed (s : OrderState) (envB : BuyEnv)
    (envS : SellEnv) (rp : Bool) (hdB : envB.delete_ok = true)
    (hdS : envS.delete_ok = true) :
    ((buyRun s envB rp).state.finished = true →
      (buyRun s envB rp).record_present = false) ∧
    ((sellRun s envS rp).state.finished = true →
      (sellRun s envS rp).record_present = false) := by
  constructor <;> intro _ <;>
    [by_cases hsw : envB.swap_ok = false; by_cases hsw : envS.swap_ok = false] <;>
    simp [buyRun, sellRun, hsw, remove_order, hdB, hdS]

/-- C8 (amended) witness: with a succeeding delete, both execution paths
remove the record. -/
theorem finished_implies_removed_witness :
    ((buyRun (closeState stopLossExample) failedBuyEnv true).state.finished = true →
      (buyRun (closeState stopLossExample) failedBuyEnv true).record_present = false) ∧
    ((sellRun (closeState stopLossExample) failedSellEnv true).state.finished = true →
      (sellRun (closeState stopLossExample) failedSellEnv true).record_present = false) :=
  finished_implies_removed (closeState stopLossExample) failedBuyEnv failedSellEnv
    true rfl rfl

/-- The order produced by confirming a buy in the buy/sell conversation:
direction string "buy", no limit price, `above = false`. -/
def convBuyOrder : OrderState :=
  { type := "buy"
    limit_price := none
    above := false
    trailing_stop := none
    amount := 10 ^ 18
    token_decimals := 18
    active := true
    finished := false
    min_price := none
    max_price := none }

/-- C9: every order the buy/sell conversation creates carries the direction
string "buy" or "sell"; since `price_update` dispatches on the string
"Купить", every such order — the "buy" direction included — is evaluated by
the SELL trigger path, and on firing `close` spawns the sell execution
routine, not the buy routine. -/
theorem buysell_orders_use_sell_path (tyq : String) (ts : Option ℤ)
    (a d : ℕ) (s : OrderState) (h : buysellOrderState tyq ts a d = some s) :
    (tyq = "buy" ∨ tyq = "sell") ∧ s.type = tyq ∧
    (∀ p, price_update s p = price_update_sell s p) ∧
    closeRoutine s = ExecRoutine.sellExec := by
  unfold buysellOrderState at h
  split_ifs at h with hq
  · injection h with h1
    subst h1
    refine ⟨hq, rfl, fun p => ?_, ?_⟩
    · rcases hq with rfl | rfl <;> simp [price_update]
    · rcases hq with rfl | rfl <;> rfl

/-- C9 witness: the order created from the "buy" button goes through the
sell path and spawns the sell routine. -/
theorem buysell_orders_use_sell_path_witness :
    (("buy" : String) = "buy" ∨ ("buy" : String) = "sell") ∧
    convBuyOrder.type = "buy" ∧
    (∀ p, price_update convBuyOrder p = price_update_sell convBuyOrder p) ∧
    closeRoutine convBuyOrder = ExecRoutine.sellExec :=
  buysell_orders_use_sell_path "buy" none (10 ^ 18) 18 convBuyOrder rfl

/-- An order whose `trailing_stop` column holds the integer 0. -/
def zeroTrailingOrder : OrderState :=
  { type := "Продать"
    limit_price := some 4
    above := true
    trailing_stop := some 0
    amount := 10 ^ 18
    token_decimals := 18
    active := true
    finished := false
    min_price := none
    max_price := none }

/-- C10: an order with `trailing_stop` present but equal to 0 can never fire
and is never mutated: the non-trailing branches require `trailing_stop is
None` and the trailing branches require Python truthiness (0 is falsy), so
no branch applies for any price and either direction. -/
theorem zero_trailing_stop_noop (s : OrderState) (p : ℚ)
    (h : s.trailing_stop = some 0) : price_update s p = (s, false) := by
  by_cases ha : s.active = false
  · exact price_update_inactive s p ha
  · by_cases ht : s.type = "Купить" <;>
      simp [price_update, ha, ht, price_update_buy, price_update_sell, h, truthy]

/-- C10 witness: the zero-callback order ignores the in-range price 5. -/
theorem zero_trailing_stop_noop_witness :
    price_update zeroTrailingOrder 5 = (zeroTrailingOrder, false) :=
  zero_trailing_stop_noop zeroTrailingOrder 5 rfl

end Claims

end PancakeTrade
